import Mathlib

/-!
# Verification of the cw-contract-sample ledger contract

Shallow embedding of `src/contract.rs`, `src/state.rs` and `src/msg.rs` of the
`cw-contract-sample` repository: a CosmWasm contract that accepts a deposit,
splits the credited amount between two recipients (integer halves), and lets
each recipient withdraw up to their accrued balance.

Modelling decisions:
* `Addr` is a plain string (CosmWasm `Addr` wraps a `String`; the contract uses
  `Addr::unchecked` throughout its ledger operations).
* `Uint128` is a natural number; the panicking `+` and `-` of CosmWasm's
  `Uint128` (which abort the transaction on overflow/underflow) are modelled by
  `checkedAdd`/`checkedSub` turning the panic into an explicit error, since an
  aborted transaction commits nothing, exactly like an error return.
* The durable key-value store is a `Storage` record holding the singleton
  `STATE` item and the `WITHDRAW_BALANCES` map (an association list; the
  first occurrence of a key is the stored value, matching `Map` semantics).
* `Cw20Contract::call` serialises an execute message into a `CosmosMsg`; the
  serialisation of these fixed-shape messages cannot fail, so it is modelled
  as a pure constructor of a `TransferFromMsg` added to the response.
* An operation returning `Except.error` models the host aborting the whole
  transaction: no storage write and no emitted message survives.
-/

namespace CwContractSample

/-- CosmWasm `Addr`: the contract treats addresses as strings
(`Addr::unchecked`), so we embed them as strings. -/
abbrev Addr := String

/-- `2^128`, the number of distinct `Uint128` values; `Uint128` values are
embedded as naturals, with this bound made explicit wherever overflow
matters. -/
def uint128Bound : Nat := 2 ^ 128

/-- `Uint128::checked_div`: `none` exactly on division by zero, otherwise
floor division. -/
def checkedDiv (a b : Nat) : Option Nat :=
  if b = 0 then none else some (a / b)

/-- `Uint128` addition: CosmWasm's `impl Add for Uint128` panics when the sum
does not fit in 128 bits; `none` models that panic. -/
def checkedAdd (a b : Nat) : Option Nat :=
  if a + b < uint128Bound then some (a + b) else none

/-- `Uint128` subtraction: CosmWasm's `impl Sub for Uint128` panics on
underflow; `none` models that panic. -/
def checkedSub (a b : Nat) : Option Nat :=
  if b ≤ a then some (a - b) else none

/-- `State` from `src/state.rs`: the singleton configuration record. -/
structure State where
  owner : Addr
  cw20_addr : Addr
  deriving Repr, DecidableEq

/-- The error enum of the contract (`ContractError`), as used by
`src/contract.rs`: `Std` wraps host/runtime errors, `InvalidAddress` is the
address-validation failure surfaced by instantiation, and
`WithdrawAmountExceedsBalance` rejects over-withdrawal.  `Overflow` and
`Underflow` stand for the transaction-aborting panics of `Uint128`
arithmetic. -/
inductive ContractError where
  | Std (msg : String)
  | InvalidAddress
  | WithdrawAmountExceedsBalance
  | Overflow
  | Underflow
  deriving Repr, DecidableEq

/-- Look up the stored balance of `a` in the `WITHDRAW_BALANCES` map
(`Map::load`); the first occurrence of the key is the stored value. -/
def loadBalance (bs : List (Addr × Nat)) (a : Addr) : Option Nat :=
  match bs with
  | [] => none
  | (k, v) :: rest => if k = a then some v else loadBalance rest a

/-- Write `v` as the balance of `a` (`Map::save`): replace the first
occurrence of the key, or append a fresh entry. -/
def saveBalance (bs : List (Addr × Nat)) (a : Addr) (v : Nat) :
    List (Addr × Nat) :=
  match bs with
  | [] => [(a, v)]
  | (k, w) :: rest =>
    if k = a then (a, v) :: rest else (k, w) :: saveBalance rest a v

/-- `Map::update`: read the current entry, run the action on it, store the
result (or propagate the action's error). -/
def updateBalance (bs : List (Addr × Nat)) (a : Addr)
    (f : Option Nat → Except ContractError Nat) :
    Except ContractError (List (Addr × Nat)) := do
  let v ← f (loadBalance bs a)
  pure (saveBalance bs a v)

/-- The durable store: the `STATE` singleton item, the `WITHDRAW_BALANCES`
map, and the `cw2` contract-version item written at instantiation. -/
structure Storage where
  state : Option State
  withdrawBalances : List (Addr × Nat)
  contractVersion : Option (String × String)
  deriving Repr, DecidableEq

/-- The empty store of a freshly created instance. -/
def Storage.empty : Storage := ⟨none, [], none⟩

/-- `Env`: the part of the host environment the contract reads (its own
address). -/
structure Env where
  contractAddress : Addr
  deriving Repr, DecidableEq

/-- `MessageInfo`: the sender of the current message. -/
structure MessageInfo where
  sender : Addr
  deriving Repr, DecidableEq

/-- The `Cw20ExecuteMsg::TransferFrom` instruction the contract emits, tagged
with the cw20 contract it is addressed to. -/
structure TransferFromMsg where
  contractAddr : Addr
  owner : Addr
  recipient : Addr
  amount : Nat
  deriving Repr, DecidableEq

/-- A CosmWasm `Response`: attributes of the emitted event plus the queued
outbound messages. -/
structure Response where
  attributes : List (String × String)
  messages : List TransferFromMsg
  deriving Repr, DecidableEq

/-- `crates.io:cw-contract-sample`, the cw2 contract name. -/
def CONTRACT_NAME : String := "crates.io:cw-contract-sample"

/-- The crate version written by `set_contract_version` (opaque to every
claim). -/
def CONTRACT_VERSION : String := "0.1.0"

/-- `InstantiateMsg` from `src/msg.rs`. -/
structure InstantiateMsg where
  cw20_addr : String
  deriving Repr, DecidableEq

/-- `ExecuteMsg` from `src/msg.rs`. -/
inductive ExecuteMsg where
  | SendCoinsToContract (amount : Nat) (cw20_addr : String)
      (recipient1 : String) (recipient2 : String)
  | WithdrawCoinsFromContract (amount : Nat) (cw20_addr : String)
  deriving Repr, DecidableEq

/-- Modelled from the spec: the identity-validation collaborator
(`deps.api.addr_validate`, whose implementation and the `ContractError`
conversion in the repository's `error.rs` are not under `src/`).  The spec
says instantiation "validates the asset identifier through the
identity-validation collaborator; fails with `InvalidAddress` if malformed",
so validation is a parameter `valid` and a malformed string yields
`InvalidAddress`. -/
def addr_validate (valid : String → Bool) (a : String) :
    Except ContractError Addr :=
  if valid a then .ok a else .error .InvalidAddress

/-- `instantiate` from `src/contract.rs`: validate the cw20 address, write the
cw2 version, save the `State` singleton, and answer with the instantiation
attributes. -/
def instantiate (valid : String → Bool) (storage : Storage)
    (info : MessageInfo) (msg : InstantiateMsg) :
    Except ContractError (Storage × Response) := do
  let addr ← addr_validate valid msg.cw20_addr
  let state : State := ⟨info.sender, addr⟩
  let storage := { storage with contractVersion := some (CONTRACT_NAME, CONTRACT_VERSION) }
  let storage := { storage with state := some state }
  pure (storage,
    ⟨[("method", "instantiate"), ("owner", info.sender),
      ("cw20_addr", msg.cw20_addr)], []⟩)

/-- `send_coins` from `src/contract.rs`: build the transfer-in instruction,
split the amount by floor division, credit each recipient with its half via
`Map::update`, and answer with the event attributes and the queued
instruction. -/
def send_coins (storage : Storage) (env : Env) (info : MessageInfo)
    (amount : Nat) (cw20_addr recipient1 recipient2 : String) :
    Except ContractError (Storage × Response) := do
  let msg : TransferFromMsg :=
    ⟨cw20_addr, info.sender, env.contractAddress, amount⟩
  let split_amount := checkedDiv amount 2
  let split_amount2 := checkedDiv amount 2
  let bs ← updateBalance storage.withdrawBalances recipient1
    (fun withdraw_balance =>
      match checkedAdd (withdraw_balance.getD 0) (split_amount.getD 0) with
      | some v => .ok v
      | none => .error .Overflow)
  let bs ← updateBalance bs recipient2
    (fun withdraw_balance =>
      match checkedAdd (withdraw_balance.getD 0) (split_amount2.getD 0) with
      | some v => .ok v
      | none => .error .Overflow)
  let storage := { storage with withdrawBalances := bs }
  pure (storage,
    ⟨[("action", "sendCoins"), ("from", info.sender),
      ("amount", toString amount), ("recipient1", recipient1),
      ("recipient1", recipient2)], [msg]⟩)

/-- `withdraw_coins` from `src/contract.rs`: reject when the requested amount
exceeds the stored balance (absent entries read as zero), otherwise build the
transfer-out instruction and debit the sender's balance. -/
def withdraw_coins (storage : Storage) (env : Env) (info : MessageInfo)
    (amount : Nat) (cw20_addr : String) :
    Except ContractError (Storage × Response) := do
  let withdraw_balance := (loadBalance storage.withdrawBalances info.sender).getD 0
  if withdraw_balance < amount then
    throw .WithdrawAmountExceedsBalance
  else
    let msg : TransferFromMsg :=
      ⟨cw20_addr, env.contractAddress, info.sender, amount⟩
    let bs ← updateBalance storage.withdrawBalances info.sender
      (fun withdraw_balance =>
        match checkedSub (withdraw_balance.getD 0) amount with
        | some v => .ok v
        | none => .error .Underflow)
    let storage := { storage with withdrawBalances := bs }
    pure (storage,
      ⟨[("action", "withdrawCoins"), ("from", info.sender),
        ("amount", toString amount)], [msg]⟩)

/-- `execute` from `src/contract.rs`: dispatch on the message. -/
def execute (storage : Storage) (env : Env) (info : MessageInfo)
    (msg : ExecuteMsg) : Except ContractError (Storage × Response) :=
  match msg with
  | .SendCoinsToContract amount cw20_addr recipient1 recipient2 =>
    send_coins storage env info amount cw20_addr recipient1 recipient2
  | .WithdrawCoinsFromContract amount cw20_addr =>
    withdraw_coins storage env info amount cw20_addr

/-- `GetOwnerResponse` from `src/msg.rs`. -/
structure GetOwnerResponse where
  owner : Addr
  deriving Repr, DecidableEq

/-- `GetCw20AddressResponse` from `src/msg.rs`. -/
structure GetCw20AddressResponse where
  cw20_addr : Addr
  deriving Repr, DecidableEq

/-- `GetWithdrawBalanceResponse` from `src/msg.rs`. -/
structure GetWithdrawBalanceResponse where
  withdraw_balance : Nat
  deriving Repr, DecidableEq

/-- `query_owner`: load the singleton state (a `StdResult`, failing with a
not-found error when never initialised). -/
def query_owner (storage : Storage) :
    Except ContractError GetOwnerResponse :=
  match storage.state with
  | none => .error (.Std "state not found")
  | some st => .ok ⟨st.owner⟩

/-- `query_cw20_addr`: load the singleton state and answer its cw20
address. -/
def query_cw20_addr (storage : Storage) :
    Except ContractError GetCw20AddressResponse :=
  match storage.state with
  | none => .error (.Std "state not found")
  | some st => .ok ⟨st.cw20_addr⟩

/-- `query_withdraw_balance`: read the recipient's ledger entry, defaulting a
missing entry (a failed `load`) to zero; always answers. -/
def query_withdraw_balance (storage : Storage) (recipient : String) :
    Except ContractError GetWithdrawBalanceResponse :=
  .ok ⟨((loadBalance storage.withdrawBalances recipient)).getD 0⟩

/-- The withdrawable balance an address reads: stored value, absent read as
zero. -/
def getBal (storage : Storage) (a : Addr) : Nat :=
  (loadBalance storage.withdrawBalances a).getD 0

/-- Total of all ledger entries (each stored occurrence counted once). -/
def sumBalances (bs : List (Addr × Nat)) : Nat :=
  match bs with
  | [] => 0
  | (_, v) :: rest => v + sumBalances rest

/-- The ledger-visible outcome of an execute call: which error it failed
with, or the resulting `WITHDRAW_BALANCES` map. -/
def ledgerResult (r : Except ContractError (Storage × Response)) :
    Except ContractError (List (Addr × Nat)) :=
  r.map (fun p => p.1.withdrawBalances)

/-- One host-level execute transaction: a successful call commits its writes,
a failed call aborts and leaves the store untouched. -/
def execStep (s : Storage) (c : Env × MessageInfo × ExecuteMsg) : Storage :=
  match execute s c.1 c.2.1 c.2.2 with
  | .ok (s', _) => s'
  | .error _ => s

/-- A sequence of host-level execute transactions. -/
def execMany (s : Storage) (cs : List (Env × MessageInfo × ExecuteMsg)) :
    Storage :=
  cs.foldl execStep s

lemma checkedAdd_eq_some {a b c : Nat} :
    checkedAdd a b = some c ↔ a + b < uint128Bound ∧ c = a + b := by
  unfold checkedAdd
  by_cases h : a + b < uint128Bound
  · simp [h, eq_comm]
  · simp [h]

lemma loadBalance_saveBalance_same (bs : List (Addr × Nat)) (a : Addr)
    (v : Nat) : loadBalance (saveBalance bs a v) a = some v := by
  induction bs with
  | nil => simp [saveBalance, loadBalance]
  | cons kv rest ih =>
    obtain ⟨k, w⟩ := kv
    by_cases hk : k = a <;> simp [saveBalance, loadBalance, hk, ih]

lemma loadBalance_saveBalance_ne (bs : List (Addr × Nat)) (a b : Addr)
    (v : Nat) (hne : b ≠ a) :
    loadBalance (saveBalance bs a v) b = loadBalance bs b := by
  induction bs with
  | nil => simp [saveBalance, loadBalance, Ne.symm hne]
  | cons kv rest ih =>
    obtain ⟨k, w⟩ := kv
    by_cases hk : k = a
    · subst hk
      simp [saveBalance, loadBalance, Ne.symm hne]
    · simp [saveBalance, loadBalance, hk, ih]

lemma sumBalances_saveBalance (bs : List (Addr × Nat)) (a : Addr)
    (v : Nat) :
    sumBalances (saveBalance bs a v) + (loadBalance bs a).getD 0 =
      sumBalances bs + v := by
  induction bs with
  | nil => simp [saveBalance, loadBalance, sumBalances]
  | cons kv rest ih =>
    obtain ⟨k, w⟩ := kv
    by_cases hk : k = a
    · simp [saveBalance, loadBalance, hk, sumBalances]
      omega
    · simp [saveBalance, loadBalance, hk, sumBalances]
      omega

/-- Computation rule for `send_coins`: the split is `amount / 2` for both
recipients, each credit is a read-add-write (aborting on `Uint128` overflow),
and the response carries the event attributes and the queued transfer-in
instruction. -/
lemma send_coins_eq (s : Storage) (env : Env) (info : MessageInfo)
    (amount : Nat) (cw r1 r2 : String) :
    send_coins s env info amount cw r1 r2 =
      (match checkedAdd ((loadBalance s.withdrawBalances r1).getD 0) (amount / 2) with
      | none => Except.error ContractError.Overflow
      | some c1 =>
        match checkedAdd ((loadBalance (saveBalance s.withdrawBalances r1 c1) r2).getD 0) (amount / 2) with
        | none => Except.error ContractError.Overflow
        | some c2 =>
          Except.ok
            ({ s with withdrawBalances := (saveBalance (saveBalance s.withdrawBalances r1 c1) r2 c2) },
             Response.mk
               [("action", "sendCoins"), ("from", info.sender),
                ("amount", toString amount), ("recipient1", r1),
                ("recipient1", r2)]
               [TransferFromMsg.mk cw info.sender env.contractAddress amount])) := by
  unfold send_coins updateBalance
  simp only [checkedDiv]
  norm_num
  cases hc1 : checkedAdd ((loadBalance s.withdrawBalances r1).getD 0) (amount / 2) with
  | none => simp [hc1, Bind.bind, Except.bind]
  | some c1 =>
    cases hc2 : checkedAdd ((loadBalance (saveBalance s.withdrawBalances r1 c1) r2).getD 0) (amount / 2) with
    | none => simp [hc1, hc2, Bind.bind, Except.bind, Functor.map, Except.map]
    | some c2 => simp [hc1, hc2, Bind.bind, Except.bind, Functor.map, Except.map]

/-- Computation rule for `withdraw_coins`: reject when the stored balance is
below the request, otherwise debit the sender and queue the transfer-out
instruction; under the guard the debit's subtraction never underflows, so the
`Underflow` abort is unreachable. -/
lemma withdraw_coins_eq (s : Storage) (env : Env) (info : MessageInfo)
    (amount : Nat) (cw : String) :
    withdraw_coins s env info amount cw =
      (if (loadBalance s.withdrawBalances info.sender).getD 0 < amount then
        Except.error ContractError.WithdrawAmountExceedsBalance
      else
        Except.ok
          ({ s with withdrawBalances := (saveBalance s.withdrawBalances
              info.sender
              ((loadBalance s.withdrawBalances info.sender).getD 0 - amount)) },
           Response.mk
             [("action", "withdrawCoins"), ("from", info.sender),
              ("amount", toString amount)]
             [TransferFromMsg.mk cw env.contractAddress info.sender amount])) := by
  unfold withdraw_coins updateBalance
  by_cases h : (loadBalance s.withdrawBalances info.sender).getD 0 < amount
  · simp [h, throw, throwThe, MonadExceptOf.throw]
  · simp [h, checkedSub, Nat.not_lt.mp h, Except.bind]


/-- Computation rule for `instantiate`: validation of the cw20 address decides
between persisting the configuration (plus the cw2 version) and failing with
`InvalidAddress`. -/
lemma instantiate_eq (valid : String → Bool) (s : Storage)
    (info : MessageInfo) (msg : InstantiateMsg) :
    instantiate valid s info msg =
      (if valid msg.cw20_addr then
        Except.ok
          ({ s with state := some (State.mk info.sender msg.cw20_addr), contractVersion := some (CONTRACT_NAME, CONTRACT_VERSION) },
           Response.mk
             [("method", "instantiate"), ("owner", info.sender),
              ("cw20_addr", msg.cw20_addr)] [])
      else Except.error ContractError.InvalidAddress) := by
  unfold instantiate addr_validate
  by_cases hv : valid msg.cw20_addr <;>
    simp [hv, Bind.bind, Except.bind, pure, Except.pure]

lemma send_coins_preserves_state (s : Storage) (env : Env)
    (info : MessageInfo) (amount : Nat) (cw r1 r2 : String) (s' : Storage)
    (resp : Response)
    (h : send_coins s env info amount cw r1 r2 = .ok (s', resp)) :
    s'.state = s.state := by
  rw [send_coins_eq] at h
  cases hc1 : checkedAdd ((loadBalance s.withdrawBalances r1).getD 0) (amount / 2) with
  | none => rw [hc1] at h; exact absurd h (by simp)
  | some c1 =>
    simp only [hc1] at h
    cases hc2 : checkedAdd ((loadBalance (saveBalance s.withdrawBalances r1 c1) r2).getD 0) (amount / 2) with
    | none => simp only [hc2] at h; exact Except.noConfusion h
    | some c2 =>
      simp only [hc2, Except.ok.injEq, Prod.mk.injEq] at h
      obtain ⟨hs', _⟩ := h
      rw [← hs']

lemma withdraw_coins_preserves_state (s : Storage) (env : Env)
    (info : MessageInfo) (amount : Nat) (cw : String) (s' : Storage)
    (resp : Response)
    (h : withdraw_coins s env info amount cw = .ok (s', resp)) :
    s'.state = s.state := by
  rw [withdraw_coins_eq] at h
  split at h
  · exact Except.noConfusion h
  · simp only [Except.ok.injEq, Prod.mk.injEq] at h
    obtain ⟨hs', _⟩ := h
    rw [← hs']

lemma execute_preserves_state (s : Storage) (env : Env) (info : MessageInfo)
    (msg : ExecuteMsg) (s' : Storage) (resp : Response)
    (h : execute s env info msg = .ok (s', resp)) : s'.state = s.state := by
  cases msg with
  | SendCoinsToContract amount cw r1 r2 =>
    exact send_coins_preserves_state s env info amount cw r1 r2 s' resp h
  | WithdrawCoinsFromContract amount cw =>
    exact withdraw_coins_preserves_state s env info amount cw s' resp h

lemma execStep_preserves_state (s : Storage)
    (c : Env × MessageInfo × ExecuteMsg) : (execStep s c).state = s.state := by
  unfold execStep
  cases hx : execute s c.1 c.2.1 c.2.2 with
  | ok p => exact execute_preserves_state s c.1 c.2.1 c.2.2 p.1 p.2 hx
  | error e => rfl

lemma execMany_preserves_state (cs : List (Env × MessageInfo × ExecuteMsg))
    (s : Storage) : (execMany s cs).state = s.state := by
  induction cs generalizing s with
  | nil => rfl
  | cons c rest ih =>
    show (execMany (execStep s c) rest).state = s.state
    rw [ih, execStep_preserves_state]


/-- Claim C1: a successful `SendCoinsToContract` with two distinct recipients
increases each recipient's withdrawable balance by exactly `amount / 2`
(floor division), so the total ledger increase is `2 * (amount / 2)` — equal
to `amount` for even amounts and to `amount - 1` for odd amounts (the odd
unit is credited to neither recipient). -/
theorem sendCoins_split_correct (s : Storage) (env : Env) (info : MessageInfo)
    (amount : Nat) (cw r1 r2 : String) (s' : Storage) (resp : Response)
    (hne : r1 ≠ r2)
    (h : send_coins s env info amount cw r1 r2 = .ok (s', resp)) :
    getBal s' r1 = getBal s r1 + amount / 2 ∧
    getBal s' r2 = getBal s r2 + amount / 2 ∧
    sumBalances s'.withdrawBalances =
      sumBalances s.withdrawBalances + 2 * (amount / 2) ∧
    (amount % 2 = 0 → 2 * (amount / 2) = amount) ∧
    (amount % 2 = 1 → 2 * (amount / 2) = amount - 1) := by
  rw [send_coins_eq] at h
  cases hc1 : checkedAdd ((loadBalance s.withdrawBalances r1).getD 0) (amount / 2) with
  | none => rw [hc1] at h; exact absurd h (by simp)
  | some c1 =>
    simp only [hc1] at h
    cases hc2 : checkedAdd ((loadBalance (saveBalance s.withdrawBalances r1 c1) r2).getD 0) (amount / 2) with
    | none => simp only [hc2] at h; exact Except.noConfusion h
    | some c2 =>
      simp only [hc2, Except.ok.injEq, Prod.mk.injEq] at h
      obtain ⟨hs', _⟩ := h
      obtain ⟨hb1, hv1⟩ := checkedAdd_eq_some.mp hc1
      obtain ⟨hb2, hv2⟩ := checkedAdd_eq_some.mp hc2
      rw [loadBalance_saveBalance_ne _ _ _ _ (Ne.symm hne)] at hv2 hb2
      have hwb : s'.withdrawBalances =
          saveBalance (saveBalance s.withdrawBalances r1 c1) r2 c2 := by
        rw [← hs']
      have hsum1 := sumBalances_saveBalance s.withdrawBalances r1 c1
      have hsum2 := sumBalances_saveBalance
        (saveBalance s.withdrawBalances r1 c1) r2 c2
      rw [loadBalance_saveBalance_ne _ _ _ _ (Ne.symm hne)] at hsum2
      refine ⟨?_, ?_, ?_, ?_, ?_⟩
      · unfold getBal
        rw [hwb, loadBalance_saveBalance_ne _ _ _ _ hne,
          loadBalance_saveBalance_same]
        simpa using hv1
      · unfold getBal
        rw [hwb, loadBalance_saveBalance_same]
        simpa using hv2
      · rw [hwb]
        omega
      · omega
      · omega

/-- Witness for claim C1: splitting 101 between `addrA` and `addrB` credits
50 to each, a total increase of 100. -/
theorem sendCoins_split_correct_witness :
    getBal (Storage.mk none [("addrA", 50), ("addrB", 50)] none) "addrA" =
        getBal Storage.empty "addrA" + 101 / 2 ∧
    getBal (Storage.mk none [("addrA", 50), ("addrB", 50)] none) "addrB" =
        getBal Storage.empty "addrB" + 101 / 2 ∧
    sumBalances (Storage.mk none [("addrA", 50), ("addrB", 50)] none).withdrawBalances =
      sumBalances Storage.empty.withdrawBalances + 2 * (101 / 2) := by
  have h := sendCoins_split_correct Storage.empty ⟨"contract"⟩ ⟨"funder"⟩ 101
    "token" "addrA" "addrB" (Storage.mk none [("addrA", 50), ("addrB", 50)] none)
    (Response.mk
      [("action", "sendCoins"), ("from", "funder"), ("amount", "101"),
       ("recipient1", "addrA"), ("recipient1", "addrB")]
      [TransferFromMsg.mk "token" "funder" "contract" 101])
    (by decide) rfl
  exact ⟨h.1, h.2.1, h.2.2.1⟩

/-- Claim C2: a withdrawal request strictly above the requester's stored
balance (absent entries reading as zero) fails with
`WithdrawAmountExceedsBalance`; the error return models the host aborting the
transaction, so no ledger entry changes and no transfer instruction is
emitted — the check precedes the transfer call in `withdraw_coins`. -/
theorem withdraw_exceeds_balance_fails (s : Storage) (env : Env)
    (info : MessageInfo) (amount : Nat) (cw : String)
    (h : getBal s info.sender < amount) :
    withdraw_coins s env info amount cw =
      .error .WithdrawAmountExceedsBalance := by
  unfold getBal at h
  rw [withdraw_coins_eq, if_pos h]

/-- Witness for claim C2: a never-credited requester withdrawing 100 is
rejected. -/
theorem withdraw_exceeds_balance_fails_witness :
    getBal Storage.empty "addrC" < 100 ∧
    withdraw_coins Storage.empty ⟨"contract"⟩ ⟨"addrC"⟩ 100 "token" =
      .error .WithdrawAmountExceedsBalance :=
  ⟨by decide,
   withdraw_exceeds_balance_fails Storage.empty ⟨"contract"⟩ ⟨"addrC"⟩ 100
     "token" (by decide)⟩

/-- Claim C3: a withdrawal of at most the requester's stored balance succeeds
and decreases that balance by exactly the requested amount; the conclusion
`getBal s' + amount = getBal s` shows the new balance never passes below
zero, and the success itself shows the guarded subtraction in the debit
cannot underflow under this precondition. -/
theorem withdraw_correct (s : Storage) (env : Env) (info : MessageInfo)
    (amount : Nat) (cw : String)
    (h : amount ≤ getBal s info.sender) :
    ∃ s' resp, withdraw_coins s env info amount cw = .ok (s', resp) ∧
      getBal s' info.sender = getBal s info.sender - amount ∧
      getBal s' info.sender + amount = getBal s info.sender := by
  unfold getBal at h
  rw [withdraw_coins_eq, if_neg (Nat.not_lt.mpr h)]
  refine ⟨_, _, rfl, ?_, ?_⟩
  · unfold getBal
    rw [loadBalance_saveBalance_same]
    rfl
  · unfold getBal
    rw [loadBalance_saveBalance_same]
    simp only [Option.getD_some]
    omega

/-- Witness for claim C3: withdrawing 30 from a balance of 50 leaves 20. -/
theorem withdraw_correct_witness :
    30 ≤ getBal (Storage.mk none [("addrA", 50)] none) "addrA" ∧
    ∃ s' resp,
      withdraw_coins (Storage.mk none [("addrA", 50)] none) ⟨"contract"⟩
          ⟨"addrA"⟩ 30 "token" = .ok (s', resp) ∧
      getBal s' "addrA" = getBal (Storage.mk none [("addrA", 50)] none) "addrA" - 30 ∧
      getBal s' "addrA" + 30 = getBal (Storage.mk none [("addrA", 50)] none) "addrA" :=
  ⟨by decide,
   withdraw_correct (Storage.mk none [("addrA", 50)] none) ⟨"contract"⟩
     ⟨"addrA"⟩ 30 "token" (by decide)⟩


/-- Claim C4: the configuration written by `instantiate` (owner = caller,
cw20 address = validated asset identifier) is immutable: after any sequence
of execute transactions (credits and withdrawals, successful or aborted),
`query_owner` still answers the initializing caller and `query_cw20_addr`
still answers the instantiation-time asset identifier; queries themselves are
pure functions of the store and cannot change it. -/
theorem config_immutable (valid : String → Bool) (s0 : Storage)
    (info : MessageInfo) (msg : InstantiateMsg) (s1 : Storage)
    (resp : Response)
    (h : instantiate valid s0 info msg = .ok (s1, resp))
    (cs : List (Env × MessageInfo × ExecuteMsg)) :
    query_owner (execMany s1 cs) = .ok ⟨info.sender⟩ ∧
    query_cw20_addr (execMany s1 cs) = .ok ⟨msg.cw20_addr⟩ := by
  rw [instantiate_eq] at h
  by_cases hv : valid msg.cw20_addr
  · rw [if_pos hv] at h
    simp only [Except.ok.injEq, Prod.mk.injEq] at h
    obtain ⟨hs1, _⟩ := h
    have hstate : s1.state = some (State.mk info.sender msg.cw20_addr) := by
      rw [← hs1]
    have hmany := execMany_preserves_state cs s1
    unfold query_owner query_cw20_addr
    rw [hmany, hstate]
    exact ⟨rfl, rfl⟩
  · rw [if_neg hv] at h
    exact Except.noConfusion h

/-- Witness for claim C4: after instantiating with owner `creator` and asset
`token`, a credit of 100 and a withdrawal of 30 leave both configuration
queries unchanged. -/
theorem config_immutable_witness :
    query_owner
        (execMany
          (Storage.mk (some (State.mk "creator" "token")) []
            (some (CONTRACT_NAME, CONTRACT_VERSION)))
          [(Env.mk "contract", MessageInfo.mk "payer",
            ExecuteMsg.SendCoinsToContract 100 "token" "addrA" "addrB"),
           (Env.mk "contract", MessageInfo.mk "addrA",
            ExecuteMsg.WithdrawCoinsFromContract 30 "token")]) =
      .ok ⟨"creator"⟩ ∧
    query_cw20_addr
        (execMany
          (Storage.mk (some (State.mk "creator" "token")) []
            (some (CONTRACT_NAME, CONTRACT_VERSION)))
          [(Env.mk "contract", MessageInfo.mk "payer",
            ExecuteMsg.SendCoinsToContract 100 "token" "addrA" "addrB"),
           (Env.mk "contract", MessageInfo.mk "addrA",
            ExecuteMsg.WithdrawCoinsFromContract 30 "token")]) =
      .ok ⟨"token"⟩ :=
  config_immutable (fun _ => true) Storage.empty ⟨"creator"⟩ ⟨"token"⟩
    (Storage.mk (some (State.mk "creator" "token")) []
      (some (CONTRACT_NAME, CONTRACT_VERSION)))
    (Response.mk
      [("method", "instantiate"), ("owner", "creator"),
       ("cw20_addr", "token")] [])
    rfl
    [(Env.mk "contract", MessageInfo.mk "payer",
      ExecuteMsg.SendCoinsToContract 100 "token" "addrA" "addrB"),
     (Env.mk "contract", MessageInfo.mk "addrA",
      ExecuteMsg.WithdrawCoinsFromContract 30 "token")]

/-- Claim C5: `query_withdraw_balance` answers zero for an identity with no
ledger entry, and it answers successfully on every store and identity; it is
a pure read (a function of the store producing only a response). -/
theorem query_balance_default_zero (s : Storage) (r : String)
    (h : loadBalance s.withdrawBalances r = none) :
    query_withdraw_balance s r = .ok ⟨0⟩ ∧
    ∀ s2 r2, ∃ resp, query_withdraw_balance s2 r2 = .ok resp := by
  constructor
  · unfold query_withdraw_balance
    rw [h]
    rfl
  · intro s2 r2
    exact ⟨_, rfl⟩

/-- Witness for claim C5: a never-credited identity reads as zero on the
empty store. -/
theorem query_balance_default_zero_witness :
    query_withdraw_balance Storage.empty "addrX" = .ok ⟨0⟩ :=
  (query_balance_default_zero Storage.empty "addrX" rfl).1

/-- Claim C7: instantiation validates the asset identifier through the
identity-validation collaborator and fails with `InvalidAddress` on every
malformed identifier; the error return models the aborted transaction, so no
configuration is persisted. -/
theorem instantiate_invalid_address (valid : String → Bool) (s : Storage)
    (info : MessageInfo) (msg : InstantiateMsg)
    (h : valid msg.cw20_addr = false) :
    instantiate valid s info msg = .error .InvalidAddress := by
  rw [instantiate_eq, if_neg (by simp [h])]

/-- Witness for claim C7: a validator rejecting everything makes
instantiation fail with `InvalidAddress`. -/
theorem instantiate_invalid_address_witness :
    instantiate (fun _ => false) Storage.empty ⟨"creator"⟩ ⟨"bad addr"⟩ =
      .error .InvalidAddress :=
  instantiate_invalid_address (fun _ => false) Storage.empty ⟨"creator"⟩
    ⟨"bad addr"⟩ rfl


/-- Claim C6: when the two recipients coincide, a successful
`SendCoinsToContract` increases that single recipient's balance by
`2 * (amount / 2)` — the two half-credits both land on the same ledger
entry. -/
theorem sendCoins_same_recipient (s : Storage) (env : Env)
    (info : MessageInfo) (amount : Nat) (cw r : String) (s' : Storage)
    (resp : Response)
    (h : send_coins s env info amount cw r r = .ok (s', resp)) :
    getBal s' r = getBal s r + 2 * (amount / 2) := by
  rw [send_coins_eq] at h
  cases hc1 : checkedAdd ((loadBalance s.withdrawBalances r).getD 0) (amount / 2) with
  | none => rw [hc1] at h; exact absurd h (by simp)
  | some c1 =>
    simp only [hc1] at h
    cases hc2 : checkedAdd ((loadBalance (saveBalance s.withdrawBalances r c1) r).getD 0) (amount / 2) with
    | none => simp only [hc2] at h; exact Except.noConfusion h
    | some c2 =>
      simp only [hc2, Except.ok.injEq, Prod.mk.injEq] at h
      obtain ⟨hs', _⟩ := h
      obtain ⟨hb1, hv1⟩ := checkedAdd_eq_some.mp hc1
      obtain ⟨hb2, hv2⟩ := checkedAdd_eq_some.mp hc2
      rw [loadBalance_saveBalance_same] at hv2 hb2
      have hwb : s'.withdrawBalances =
          saveBalance (saveBalance s.withdrawBalances r c1) r c2 := by
        rw [← hs']
      unfold getBal
      rw [hwb, loadBalance_saveBalance_same]
      simp only [Option.getD_some] at hv2 ⊢
      omega

/-- Witness for claim C6: splitting 101 with both recipients equal to
`addrA` credits 100 to `addrA` (two half-credits of 50). -/
theorem sendCoins_same_recipient_witness :
    getBal (Storage.mk none [("addrA", 100)] none) "addrA" =
      getBal Storage.empty "addrA" + 2 * (101 / 2) :=
  sendCoins_same_recipient Storage.empty ⟨"contract"⟩ ⟨"funder"⟩ 101 "token"
    "addrA" (Storage.mk none [("addrA", 100)] none)
    (Response.mk
      [("action", "sendCoins"), ("from", "funder"), ("amount", "101"),
       ("recipient1", "addrA"), ("recipient1", "addrA")]
      [TransferFromMsg.mk "token" "funder" "contract" 101])
    rfl

/-- Counterexample for claim C8: on the concrete successful run splitting
100 between `addrA` and `addrB` (each credited 50, as the resulting ledger
shows), the returned response carries the total "100" but neither credited
amount "50" anywhere in its attributes, and no attribute is keyed
"recipient2" — the second recipient's identity sits under a duplicated
"recipient1" key — refuting that the call returns the two credited amounts
with each recipient identifiable in the emitted attributes. -/
theorem sendCoins_response_counterexample :
    send_coins Storage.empty ⟨"contract"⟩ ⟨"funder"⟩ 100 "token" "addrA" "addrB" =
      Except.ok
        (Storage.mk none [("addrA", 50), ("addrB", 50)] none,
         Response.mk
           [("action", "sendCoins"), ("from", "funder"), ("amount", "100"),
            ("recipient1", "addrA"), ("recipient1", "addrB")]
           [TransferFromMsg.mk "token" "funder" "contract" 100]) ∧
    (([("action", "sendCoins"), ("from", "funder"), ("amount", "100"),
       ("recipient1", "addrA"), ("recipient1", "addrB")] : List (String × String)).all
        (fun kv => kv.1 != "recipient2" && kv.2 != "50")) = true :=
  ⟨rfl, rfl⟩

/-- Claim C8 as amended: every successful `SendCoinsToContract` returns a
response whose event attributes record the action, the source identity, the
total amount, and both recipient identity values — the second under the
duplicated key "recipient1" — and whose queued message is the single
transfer-in instruction; the two credited half-amounts are not part of the
response. -/
theorem sendCoins_response_amended (s : Storage) (env : Env)
    (info : MessageInfo) (amount : Nat) (cw r1 r2 : String) (s' : Storage)
    (resp : Response)
    (h : send_coins s env info amount cw r1 r2 = .ok (s', resp)) :
    resp.attributes =
      [("action", "sendCoins"), ("from", info.sender),
       ("amount", toString amount), ("recipient1", r1), ("recipient1", r2)] ∧
    resp.messages = [TransferFromMsg.mk cw info.sender env.contractAddress amount] := by
  rw [send_coins_eq] at h
  cases hc1 : checkedAdd ((loadBalance s.withdrawBalances r1).getD 0) (amount / 2) with
  | none => rw [hc1] at h; exact absurd h (by simp)
  | some c1 =>
    simp only [hc1] at h
    cases hc2 : checkedAdd ((loadBalance (saveBalance s.withdrawBalances r1 c1) r2).getD 0) (amount / 2) with
    | none => simp only [hc2] at h; exact Except.noConfusion h
    | some c2 =>
      simp only [hc2, Except.ok.injEq, Prod.mk.injEq] at h
      obtain ⟨_, hresp⟩ := h
      rw [← hresp]
      exact ⟨rfl, rfl⟩

/-- Witness for claim C8 as amended: the concrete response for splitting 100
between `addrA` and `addrB`. -/
theorem sendCoins_response_amended_witness :
    (Response.mk
        [("action", "sendCoins"), ("from", "funder"), ("amount", "100"),
         ("recipient1", "addrA"), ("recipient1", "addrB")]
        [TransferFromMsg.mk "token" "funder" "contract" 100]).attributes =
      [("action", "sendCoins"), ("from", "funder"),
       ("amount", toString 100), ("recipient1", "addrA"), ("recipient1", "addrB")] ∧
    (Response.mk
        [("action", "sendCoins"), ("from", "funder"), ("amount", "100"),
         ("recipient1", "addrA"), ("recipient1", "addrB")]
        [TransferFromMsg.mk "token" "funder" "contract" 100]).messages =
      [TransferFromMsg.mk "token" "funder" "contract" 100] :=
  sendCoins_response_amended Storage.empty ⟨"contract"⟩ ⟨"funder"⟩ 100 "token"
    "addrA" "addrB" (Storage.mk none [("addrA", 50), ("addrB", 50)] none)
    (Response.mk
      [("action", "sendCoins"), ("from", "funder"), ("amount", "100"),
       ("recipient1", "addrA"), ("recipient1", "addrB")]
      [TransferFromMsg.mk "token" "funder" "contract" 100])
    rfl

/-- Claim C9: neither `send_coins` nor `withdraw_coins` compares its cw20
address argument with the stored configuration: two runs from stores with
the same ledger but arbitrary (different) stored configurations, passed
arbitrary (different) cw20 address arguments, have the same success/failure
outcome and the same resulting ledger. -/
theorem asset_identifier_not_checked (s1 s2 : Storage) (env : Env)
    (info : MessageInfo) (amount : Nat) (cw1 cw2 r1 r2 : String)
    (h : s1.withdrawBalances = s2.withdrawBalances) :
    ledgerResult (send_coins s1 env info amount cw1 r1 r2) =
      ledgerResult (send_coins s2 env info amount cw2 r1 r2) ∧
    ledgerResult (withdraw_coins s1 env info amount cw1) =
      ledgerResult (withdraw_coins s2 env info amount cw2) := by
  constructor
  · rw [send_coins_eq, send_coins_eq, h]
    cases hc1 : checkedAdd ((loadBalance s2.withdrawBalances r1).getD 0) (amount / 2) with
    | none => rfl
    | some c1 =>
      cases hc2 : checkedAdd ((loadBalance (saveBalance s2.withdrawBalances r1 c1) r2).getD 0) (amount / 2) with
      | none => simp only [hc2]
      | some c2 => simp only [hc2]; simp [ledgerResult, Except.map]
  · rw [withdraw_coins_eq, withdraw_coins_eq, h]
    by_cases hlt : (loadBalance s2.withdrawBalances info.sender).getD 0 < amount
    · simp [hlt]
    · simp [hlt, ledgerResult, Except.map]

/-- Witness for claim C9: stores agreeing on the ledger but holding
different configurations, called with different cw20 address arguments,
produce identical ledger outcomes for both operations. -/
theorem asset_identifier_not_checked_witness :
    ledgerResult
        (send_coins (Storage.mk (some (State.mk "owner" "assetX")) [("addrA", 7)] none)
          ⟨"contract"⟩ ⟨"addrA"⟩ 4 "assetX" "addrA" "addrB") =
      ledgerResult
        (send_coins (Storage.mk (some (State.mk "owner" "assetY")) [("addrA", 7)] none)
          ⟨"contract"⟩ ⟨"addrA"⟩ 4 "assetZ" "addrA" "addrB") ∧
    ledgerResult
        (withdraw_coins (Storage.mk (some (State.mk "owner" "assetX")) [("addrA", 7)] none)
          ⟨"contract"⟩ ⟨"addrA"⟩ 4 "assetX") =
      ledgerResult
        (withdraw_coins (Storage.mk (some (State.mk "owner" "assetY")) [("addrA", 7)] none)
          ⟨"contract"⟩ ⟨"addrA"⟩ 4 "assetZ") :=
  asset_identifier_not_checked
    (Storage.mk (some (State.mk "owner" "assetX")) [("addrA", 7)] none)
    (Storage.mk (some (State.mk "owner" "assetY")) [("addrA", 7)] none)
    ⟨"contract"⟩ ⟨"addrA"⟩ 4 "assetX" "assetZ" "addrA" "addrB" rfl

/-- Claim C10: a withdrawal of zero never trips the balance check (which
uses strict less-than), succeeds for every requester — including one with no
ledger entry — and leaves the requester's withdrawable balance at its prior
value. -/
theorem withdraw_zero_never_exceeds (s : Storage) (env : Env)
    (info : MessageInfo) (cw : String) :
    ∃ s' resp, withdraw_coins s env info 0 cw = .ok (s', resp) ∧
      getBal s' info.sender = getBal s info.sender := by
  rw [withdraw_coins_eq, if_neg (Nat.not_lt_zero _)]
  refine ⟨_, _, rfl, ?_⟩
  unfold getBal
  rw [loadBalance_saveBalance_same]
  simp

end CwContractSample
